import Mathlib

/-!
Verification of the gobuy-backend request handlers (src/server.js).

The server is a stateless HTTP layer over an external record store
(`products`, `cart_items`, `profiles` collections) and an identity
provider.  Each handler is embedded here as a pure function from the
request data and the current store contents to a response and the
resulting store contents.  The bearer-token guard shared by all
protected handlers is resolved before the handler body runs, so the
embedded handlers take the authenticated user directly.

JavaScript conventions carried over into the model:
  * an absent (`undefined`) body field is `none`;
  * string truthiness (`!x` rejects both `undefined` and `""`) is
    `strTruthy`;
  * `a || b` on optional strings is `jsOr`;
  * numeric ids are `Nat` (the JS `!product_id` check also fires on the
    falsy id `0`, which the model keeps);
  * `price` values are rationals, standing for the JS numbers produced
    by `parseFloat`;
  * timestamps are integers (epoch milliseconds).
-/

namespace GoBuy

/-- JS truthiness of an optional string: `undefined` and `""` are falsy. -/
def strTruthy : Option String → Bool
  | none => false
  | some s => s ≠ ""

/-- JS `a || b` on optional strings. -/
def jsOr (a b : Option String) : Option String :=
  if strTruthy a then a else b

/-- JS `a || d` where the fallback is a plain string (e.g. `x || ''`). -/
def jsOrD (a : Option String) (d : String) : String :=
  if strTruthy a then a.getD d else d

/-- JS `a || null` (used for `image_url`/`category` on product creation). -/
def orNull (a : Option String) : Option String :=
  if strTruthy a then a else none

/-- A row of the `products` collection. -/
structure Product where
  id : Nat
  seller_id : Nat
  title : String
  description : String
  price : ℚ
  image_url : Option String
  category : Option String
  stock_quantity : Nat
  is_active : Bool
  created_at : Int
  updated_at : Int
  deriving Repr, DecidableEq

/-- A row of the `cart_items` collection. -/
structure CartItem where
  id : Nat
  user_id : Nat
  product_id : Nat
  quantity : Nat
  added_at : Int
  deriving Repr, DecidableEq

/-- The record-store contents the handlers under study touch. -/
structure Store where
  products : List Product
  cart_items : List CartItem
  deriving Repr, DecidableEq

/-- The JSON response envelope: HTTP status plus the body fields the
handlers emit (absent fields are `none`). -/
structure Resp where
  status : Nat
  error : Option String := none
  message : Option String := none
  details : Option String := none
  suggestion : Option String := none
  available : Option Nat := none
  requested : Option Nat := none
  currentInCart : Option Nat := none
  product : Option Product := none
  cartItem : Option CartItem := none
  deriving Repr, DecidableEq

/-- Fresh id the store assigns to an inserted cart row. -/
def nextCartItemId (s : Store) : Nat :=
  (s.cart_items.map (fun ci => ci.id)).foldr max 0 + 1

/-- Handler for `POST /api/cart` (server.js 406-532), after the auth guard.
`product_id`/`quantity` are the body fields (`quantity` defaults to 1),
`now` is the clock reading used for `added_at` on update; the inserted
row's `added_at` is likewise stamped by the store at `now`. -/
def addToCart (s : Store) (uid : Nat) (product_id : Option Nat)
    (quantity_body : Option Nat) (now : Int) : Resp × Store :=
  match product_id with
  | none => ({ status := 400, error := some "Product ID is required" }, s)
  | some pid =>
    if pid = 0 then
      ({ status := 400, error := some "Product ID is required" }, s)
    else
      let quantity := quantity_body.getD 1
      match s.products.find? (fun p => p.id == pid) with
      | none => ({ status := 404, error := some "Product not found" }, s)
      | some product =>
        if product.is_active = false then
          ({ status := 400, error := some "Product is not active" }, s)
        else if product.stock_quantity < quantity then
          ({ status := 400, error := some "Insufficient stock",
             available := some product.stock_quantity,
             requested := some quantity }, s)
        else
          match s.cart_items.find? (fun ci => ci.user_id == uid && ci.product_id == pid) with
          | some existingItem =>
            let newQuantity := existingItem.quantity + quantity
            if newQuantity > product.stock_quantity then
              ({ status := 400,
                 error := some "Cannot add more items than available stock",
                 currentInCart := some existingItem.quantity,
                 available := some product.stock_quantity,
                 requested := some quantity }, s)
            else
              ({ status := 201,
                 message := some ("Added \"" ++ product.title ++ "\" to cart"),
                 cartItem := some { existingItem with quantity := newQuantity, added_at := now } },
               { s with cart_items := s.cart_items.map (fun ci =>
                   if ci.id == existingItem.id then
                     { ci with quantity := newQuantity, added_at := now }
                   else ci) })
          | none =>
            let newItem : CartItem :=
              { id := nextCartItemId s, user_id := uid, product_id := pid,
                quantity := quantity, added_at := now }
            ({ status := 201,
               message := some ("Added \"" ++ product.title ++ "\" to cart"),
               cartItem := some newItem },
             { s with cart_items := s.cart_items ++ [newItem] })

/-- Request body of `POST /api/posts`.  `seller_id` is the field a client
may try to smuggle in; the handler never reads it. -/
structure CreateProductBody where
  title : Option String := none
  description : Option String := none
  price : Option ℚ := none
  image_url : Option String := none
  category : Option String := none
  stock_quantity : Option Nat := none
  is_active : Option Bool := none
  seller_id : Option Nat := none
  deriving Repr, DecidableEq

/-- Handler for `POST /api/posts` (server.js 70-151), after the auth guard.
`freshId`/`now` stand for the id and timestamps the store assigns to the
inserted row.  The JS validation is `!title || !description ||
price === undefined`; defaults are `image_url || null`,
`category || null`, `stock_quantity || 0`, and
`is_active !== undefined ? is_active : true`. -/
def createProduct (s : Store) (uid : Nat) (body : CreateProductBody)
    (freshId : Nat) (now : Int) : Resp × Store :=
  if strTruthy body.title = false ∨ strTruthy body.description = false ∨
      body.price = none then
    ({ status := 400,
       error := some "Missing required fields: title, description, price" }, s)
  else
    let newProduct : Product :=
      { id := freshId,
        seller_id := uid,
        title := body.title.getD "",
        description := body.description.getD "",
        price := body.price.getD 0,
        image_url := orNull body.image_url,
        category := orNull body.category,
        stock_quantity := body.stock_quantity.getD 0,
        is_active := body.is_active.getD true,
        created_at := now,
        updated_at := now }
    ({ status := 201, message := some "Product created successfully",
       product := some newProduct },
     { s with products := s.products ++ [newProduct] })

/-- Request body of `PUT /api/my-products/:id`: every field optional,
`none` standing for an omitted (`undefined`) field. -/
structure UpdateProductBody where
  title : Option String := none
  description : Option String := none
  price : Option ℚ := none
  image_url : Option String := none
  category : Option String := none
  stock_quantity : Option Nat := none
  is_active : Option Bool := none
  deriving Repr, DecidableEq

/-- The partial update `PUT /api/my-products/:id` builds: only the body
fields that are present overwrite the row, and `updated_at` is stamped. -/
def applyUpdates (body : UpdateProductBody) (now : Int) (p : Product) : Product :=
  { p with
    updated_at := now,
    title := body.title.getD p.title,
    description := body.description.getD p.description,
    price := body.price.getD p.price,
    image_url := match body.image_url with
      | some u => some u
      | none => p.image_url,
    category := match body.category with
      | some c => some c
      | none => p.category,
    stock_quantity := body.stock_quantity.getD p.stock_quantity,
    is_active := body.is_active.getD p.is_active }

/-- Handler for `PUT /api/my-products/:id` (server.js 955-1041), after the auth
guard.  Read the product by id (404 if absent), 403 on ownership
mismatch, then write filtered by `id` AND `seller_id`; an empty result
set from the write maps to 404. -/
def updateMyProduct (s : Store) (uid pid : Nat) (body : UpdateProductBody)
    (now : Int) : Resp × Store :=
  match s.products.find? (fun p => p.id == pid) with
  | none => ({ status := 404, error := some "Product not found" }, s)
  | some existingProduct =>
    if existingProduct.seller_id ≠ uid then
      ({ status := 403, error := some "You can only edit your own products" }, s)
    else
      let updatedRows :=
        (s.products.filter (fun p => p.id == pid && p.seller_id == uid)).map
          (applyUpdates body now)
      let s2 : Store :=
        { s with products := s.products.map (fun p =>
            if p.id == pid && p.seller_id == uid then applyUpdates body now p else p) }
      match updatedRows with
      | [] => ({ status := 404, error := some "Product not found or update failed" }, s2)
      | r :: _ =>
        ({ status := 200, message := some "Product updated successfully",
           product := some r }, s2)

/-- Handler for `DELETE /api/my-products/:id` (server.js 1044-1132), after the auth
guard.  Read the product by id (404 if absent), 403 on ownership
mismatch, 400 when any cart item references the product, else delete
filtered by `id` AND `seller_id`. -/
def deleteMyProduct (s : Store) (uid pid : Nat) : Resp × Store :=
  match s.products.find? (fun p => p.id == pid) with
  | none => ({ status := 404, error := some "Product not found" }, s)
  | some existingProduct =>
    if existingProduct.seller_id ≠ uid then
      ({ status := 403, error := some "You can only delete your own products" }, s)
    else
      let cartItems := s.cart_items.filter (fun ci => ci.product_id == pid)
      if cartItems.length > 0 then
        ({ status := 400,
           error := some "Cannot delete product that is currently in customer carts",
           suggestion := some "Consider marking it as inactive instead" }, s)
      else
        ({ status := 200,
           message := some ("Product \"" ++ existingProduct.title ++ "\" deleted successfully") },
         { s with products := s.products.filter (fun p =>
             !(p.id == pid && p.seller_id == uid)) })

/-- Handler for `DELETE /api/cart/:id` (server.js 619-677), after the auth guard.
The ownership read filters by item id AND `user_id` (404 when nothing
matches); the delete write filters by the item id alone. -/
def removeFromCart (s : Store) (uid cid : Nat) : Resp × Store :=
  match s.cart_items.find? (fun ci => ci.id == cid && ci.user_id == uid) with
  | none => ({ status := 404, error := some "Cart item not found" }, s)
  | some cartItem =>
    let title :=
      ((s.products.find? (fun p => p.id == cartItem.product_id)).map
        (fun p => p.title)).getD ""
    ({ status := 200, message := some ("Removed \"" ++ title ++ "\" from cart") },
     { s with cart_items := s.cart_items.filter (fun ci => !(ci.id == cid)) })

/-- The aggregate block `GET /api/seller-stats` returns. -/
structure SellerStats where
  totalProducts : Nat
  activeProducts : Nat
  inactiveProducts : Nat
  outOfStockProducts : Nat
  recentProducts : Nat
  totalInventoryValue : ℚ
  deriving Repr, DecidableEq

/-- Seven days in epoch milliseconds (`weekAgo.setDate(getDate() - 7)`). -/
def sevenDays : Int := 7 * 24 * 60 * 60 * 1000

/-- The in-memory aggregation of `GET /api/seller-stats`
(server.js 1166-1190), applied to the caller's product rows returned by
the store; `now` is the clock reading taken for the trailing-week
cutoff. -/
def sellerStats (products : List Product) (now : Int) : SellerStats :=
  let totalProducts := products.length
  let activeProducts := (products.filter (fun p => p.is_active)).length
  let inactiveProducts := totalProducts - activeProducts
  let outOfStockProducts := (products.filter (fun p => p.stock_quantity == 0)).length
  let totalValue := products.foldl
    (fun sum p => sum + p.price * (p.stock_quantity : ℚ)) 0
  let weekAgo := now - sevenDays
  let recentProducts := (products.filter (fun p => weekAgo < p.created_at)).length
  { totalProducts := totalProducts,
    activeProducts := activeProducts,
    inactiveProducts := inactiveProducts,
    outOfStockProducts := outOfStockProducts,
    recentProducts := recentProducts,
    totalInventoryValue := totalValue }

/-- The identity metadata fields the profile handlers consult. -/
structure UserMetadata where
  full_name : Option String := none
  avatar_url : Option String := none
  provider_id : Option String := none
  deriving Repr, DecidableEq

/-- A resolved user identity (what `auth.getUser(token)` yields). -/
structure UserIdentity where
  id : Nat
  email : String
  metadata : UserMetadata
  created_at : Int
  last_sign_in_at : Int
  email_confirmed_at : Int
  deriving Repr, DecidableEq

/-- A row of the `profiles` collection, as selected by the profile read
(`username, website, avatar_url, google_id`). -/
structure ProfileRow where
  username : Option String := none
  website : Option String := none
  avatar_url : Option String := none
  google_id : Option String := none
  deriving Repr, DecidableEq

/-- The `user` object `GET /api/auth/profile` responds with, plus the
HTTP status. -/
structure ProfileResponse where
  status : Nat
  id : Nat
  email : String
  name : Option String
  username : Option String
  website : String
  avatar_url : Option String
  google_id : Option String
  created_at : Int
  last_sign_in_at : Int
  email_confirmed_at : Int
  deriving Repr, DecidableEq

/-- Handler for `GET /api/auth/profile` (server.js 752-803), after the auth guard.
`profileLookup` is the profile read: `none` when the row is absent or
the lookup failed (the handler swallows both and keeps `profileData`
empty, i.e. every field `undefined`). -/
def getProfile (u : UserIdentity) (profileLookup : Option ProfileRow) : ProfileResponse :=
  let profileData : ProfileRow := profileLookup.getD {}
  { status := 200,
    id := u.id,
    email := u.email,
    name := jsOr (jsOr profileData.username u.metadata.full_name) (some u.email),
    username := jsOr profileData.username u.metadata.full_name,
    website := jsOrD profileData.website "",
    avatar_url := jsOr profileData.avatar_url u.metadata.avatar_url,
    google_id := jsOr profileData.google_id u.metadata.provider_id,
    created_at := u.created_at,
    last_sign_in_at := u.last_sign_in_at,
    email_confirmed_at := u.email_confirmed_at }

/-- Concrete fixture: an active product with stock 2, sold by user 5. -/
def demoProduct : Product :=
  { id := 1, seller_id := 5, title := "Widget", description := "d", price := 2,
    image_url := none, category := none, stock_quantity := 2, is_active := true,
    created_at := 0, updated_at := 0 }

/-- Concrete fixture: an inactive product. -/
def demoInactive : Product :=
  { demoProduct with id := 2, is_active := false }

/-- Concrete fixture: a store with the two demo products and an empty cart. -/
def demoStore : Store :=
  { products := [demoProduct, demoInactive], cart_items := [] }

/-- Concrete fixture: a cart row of user 7 holding one unit of product 1. -/
def demoItem : CartItem :=
  { id := 1, user_id := 7, product_id := 1, quantity := 1, added_at := 0 }

/-- Concrete fixture: the demo store with user 7 already holding product 1. -/
def demoStoreWithItem : Store :=
  { demoStore with cart_items := [demoItem] }

/-- Concrete fixture: two cart rows sharing the row id 1 but owned by
different users, to probe the id-only delete filter. -/
def demoCartTwoOwners : Store :=
  { products := [demoProduct],
    cart_items := [demoItem, { demoItem with user_id := 8 }] }

/-- Concrete fixture: a valid product-creation body. -/
def demoCreateBody : CreateProductBody :=
  { title := some "Widget", description := some "d", price := some (9.99 : ℚ) }

/-- Helper: folding addition from the left is the sum of the mapped list. -/
theorem foldl_add_eq_sum (f : Product → ℚ) (l : List Product) (init : ℚ) :
    l.foldl (fun sum p => sum + f p) init = init + (l.map f).sum := by
  induction l generalizing init with
  | nil => simp
  | cons a t ih =>
    simp only [List.foldl_cons, List.map_cons, List.sum_cons, ih]
    ring

/-- C4: an authenticated cart-add request is rejected with the store left
unchanged when the `product_id` is missing (400), the product cannot be
loaded (404), the product is inactive (400), or the stock is strictly
below the requested quantity (400 with error "Insufficient stock" and
the `available`/`requested` figures). -/
theorem cart_add_rejections (s : Store) (uid : Nat) (pidOpt qtyOpt : Option Nat)
    (now : Int) :
    (pidOpt = none →
      addToCart s uid pidOpt qtyOpt now =
        ({ status := 400, error := some "Product ID is required" }, s)) ∧
    (∀ pid, pidOpt = some pid → pid ≠ 0 →
      s.products.find? (fun p => p.id == pid) = none →
      addToCart s uid pidOpt qtyOpt now =
        ({ status := 404, error := some "Product not found" }, s)) ∧
    (∀ pid product, pidOpt = some pid → pid ≠ 0 →
      s.products.find? (fun p => p.id == pid) = some product →
      product.is_active = false →
      addToCart s uid pidOpt qtyOpt now =
        ({ status := 400, error := some "Product is not active" }, s)) ∧
    (∀ pid product, pidOpt = some pid → pid ≠ 0 →
      s.products.find? (fun p => p.id == pid) = some product →
      product.is_active = true →
      product.stock_quantity < qtyOpt.getD 1 →
      addToCart s uid pidOpt qtyOpt now =
        ({ status := 400, error := some "Insufficient stock",
           available := some product.stock_quantity,
           requested := some (qtyOpt.getD 1) }, s)) := by
  refine ⟨?_, ?_, ?_, ?_⟩
  · intro h; subst h; rfl
  · intro pid h hz hf; subst h
    simp [addToCart, hz, hf]
  · intro pid product h hz hf hact; subst h
    simp [addToCart, hz, hf, hact]
  · intro pid product h hz hf hact hst; subst h
    simp [addToCart, hz, hf, hact, hst]

/-- Witness for `cart_add_rejections` on the demo store; the last
conjunct is the spec scenario (stock 2, requested 3, no cart row
created). -/
theorem cart_add_rejections_witness :
    (addToCart demoStore 7 none none 0).1.status = 400 ∧
    (addToCart demoStore 7 (some 9) none 0).1.status = 404 ∧
    (addToCart demoStore 7 (some 2) none 0).1.status = 400 ∧
    addToCart demoStore 7 (some 1) (some 3) 0 =
      ({ status := 400, error := some "Insufficient stock",
         available := some 2, requested := some 3 }, demoStore) := by
  refine ⟨?_, ?_, ?_, ?_⟩
  · rw [(cart_add_rejections demoStore 7 none none 0).1 rfl]
  · rw [(cart_add_rejections demoStore 7 (some 9) none 0).2.1 9 rfl
      (by decide) rfl]
  · rw [(cart_add_rejections demoStore 7 (some 2) none 0).2.2.1 2 demoInactive
      rfl (by decide) rfl rfl]
  · exact (cart_add_rejections demoStore 7 (some 1) (some 3) 0).2.2.2 1 demoProduct
      rfl (by decide) rfl rfl (by decide)

/-- C1: an authenticated cart-add for an active product with sufficient
stock.  When no cart row matches (caller, product), exactly one new row
is appended with the requested quantity (default 1).  When a row
exists, `newQuantity = existing.quantity + requested`; if it exceeds
`stock_quantity` the request is rejected with 400 (reporting
`currentInCart`, `available`, `requested`) and the store is unchanged;
otherwise that row's quantity becomes `newQuantity` and its `added_at`
is refreshed to now. -/
theorem cart_add_upsert (s : Store) (uid pid : Nat) (qtyOpt : Option Nat)
    (now : Int) (product : Product)
    (hpid : pid ≠ 0)
    (hfind : s.products.find? (fun p => p.id == pid) = some product)
    (hactive : product.is_active = true)
    (hstock : qtyOpt.getD 1 ≤ product.stock_quantity) :
    (s.cart_items.find? (fun ci => ci.user_id == uid && ci.product_id == pid) = none →
      addToCart s uid (some pid) qtyOpt now =
        ({ status := 201,
           message := some ("Added \"" ++ product.title ++ "\" to cart"),
           cartItem := some { id := nextCartItemId s, user_id := uid,
                              product_id := pid, quantity := qtyOpt.getD 1,
                              added_at := now } },
         { s with cart_items := s.cart_items ++
             [{ id := nextCartItemId s, user_id := uid, product_id := pid,
                quantity := qtyOpt.getD 1, added_at := now }] })) ∧
    (∀ existingItem,
      s.cart_items.find? (fun ci => ci.user_id == uid && ci.product_id == pid) =
        some existingItem →
      ((product.stock_quantity < existingItem.quantity + qtyOpt.getD 1 →
        addToCart s uid (some pid) qtyOpt now =
          ({ status := 400,
             error := some "Cannot add more items than available stock",
             currentInCart := some existingItem.quantity,
             available := some product.stock_quantity,
             requested := some (qtyOpt.getD 1) }, s)) ∧
       (existingItem.quantity + qtyOpt.getD 1 ≤ product.stock_quantity →
        addToCart s uid (some pid) qtyOpt now =
          ({ status := 201,
             message := some ("Added \"" ++ product.title ++ "\" to cart"),
             cartItem := some { existingItem with
               quantity := existingItem.quantity + qtyOpt.getD 1,
               added_at := now } },
           { s with cart_items := s.cart_items.map (fun ci =>
               if ci.id == existingItem.id then
                 { ci with
                   quantity := existingItem.quantity + qtyOpt.getD 1,
                   added_at := now }
               else ci) })))) := by
  have hsuff : ¬ product.stock_quantity < qtyOpt.getD 1 := Nat.not_lt.mpr hstock
  refine ⟨?_, ?_⟩
  · intro hcart
    simp [addToCart, hpid, hfind, hactive, hsuff, hcart]
  · intro existingItem hcart
    refine ⟨?_, ?_⟩
    · intro hover
      simp [addToCart, hpid, hfind, hactive, hsuff, hcart, hover]
    · intro hok
      have hok2 : ¬ product.stock_quantity < existingItem.quantity + qtyOpt.getD 1 :=
        Nat.not_lt.mpr hok
      simp [addToCart, hpid, hfind, hactive, hsuff, hcart, hok2]

/-- Witness for `cart_add_upsert` on the demo store: a fresh insert, an
over-stock merge rejection, and a successful merge. -/
theorem cart_add_upsert_witness :
    (addToCart demoStore 7 (some 1) (some 1) 3).1.status = 201 ∧
    (addToCart demoStore 7 (some 1) (some 1) 3).2.cart_items =
      [{ id := 1, user_id := 7, product_id := 1, quantity := 1, added_at := 3 }] ∧
    addToCart demoStoreWithItem 7 (some 1) (some 2) 3 =
      ({ status := 400,
         error := some "Cannot add more items than available stock",
         currentInCart := some 1, available := some 2, requested := some 2 },
       demoStoreWithItem) ∧
    (addToCart demoStoreWithItem 7 (some 1) (some 1) 3).2.cart_items =
      [{ id := 1, user_id := 7, product_id := 1, quantity := 2, added_at := 3 }] := by
  refine ⟨?_, ?_, ?_, ?_⟩
  · rw [(cart_add_upsert demoStore 7 1 (some 1) 3 demoProduct (by decide) rfl rfl
      (by decide)).1 rfl]
  · rw [(cart_add_upsert demoStore 7 1 (some 1) 3 demoProduct (by decide) rfl rfl
      (by decide)).1 rfl]
    rfl
  · exact ((cart_add_upsert demoStoreWithItem 7 1 (some 2) 3 demoProduct (by decide)
      rfl rfl (by decide)).2 demoItem rfl).1 (by decide)
  · rw [((cart_add_upsert demoStoreWithItem 7 1 (some 1) 3 demoProduct (by decide)
      rfl rfl (by decide)).2 demoItem rfl).2 (by decide)]
    rfl

/-- C2: a valid product-creation request stores a row whose `seller_id`
is the authenticated caller's id, and the handler's output does not
depend on any `seller_id` supplied in the request body. -/
theorem create_product_forces_seller (s : Store) (uid : Nat)
    (body : CreateProductBody) (freshId : Nat) (now : Int)
    (ht : strTruthy body.title = true)
    (hd : strTruthy body.description = true)
    (hp : body.price ≠ none) :
    (∃ p, (createProduct s uid body freshId now).1 =
        { status := 201, message := some "Product created successfully",
          product := some p } ∧
      p.seller_id = uid ∧
      (createProduct s uid body freshId now).2.products = s.products ++ [p]) ∧
    (∀ sid : Option Nat,
      createProduct s uid { body with seller_id := sid } freshId now =
        createProduct s uid body freshId now) := by
  have hv : ¬ (strTruthy body.title = false ∨ strTruthy body.description = false ∨
      body.price = none) := by
    simp [ht, hd, hp]
  constructor
  · refine ⟨{ id := freshId,
              seller_id := uid,
              title := body.title.getD "",
              description := body.description.getD "",
              price := body.price.getD 0,
              image_url := orNull body.image_url,
              category := orNull body.category,
              stock_quantity := body.stock_quantity.getD 0,
              is_active := body.is_active.getD true,
              created_at := now,
              updated_at := now }, ?_, rfl, ?_⟩
    · simp [createProduct, hv]
    · simp [createProduct, hv]
  · intro sid
    simp [createProduct]

/-- Witness for `create_product_forces_seller`: a client-supplied
`seller_id` of 42 is ignored and the caller id 5 is stored. -/
theorem create_product_forces_seller_witness :
    ∃ p, (createProduct demoStore 5 { demoCreateBody with seller_id := some 42 }
        3 0).1.product = some p ∧ p.seller_id = 5 := by
  obtain ⟨⟨p, h1, h2, h3⟩, h4⟩ :=
    create_product_forces_seller demoStore 5
      { demoCreateBody with seller_id := some 42 } 3 0 (by decide) (by decide)
      (by simp [demoCreateBody])
  exact ⟨p, by rw [h1], h2⟩

/-- C6: product creation rejects with 400 (store untouched) when `title`
or `description` is missing or `price` is undefined; any defined price,
zero included, passes validation.  On acceptance the row stores the
coerced price, `image_url`/`category` defaulting to null when absent,
`stock_quantity` defaulting to 0 when absent, `is_active` true unless
explicitly false, and the response is 201 with the created product. -/
theorem create_product_validation (s : Store) (uid : Nat)
    (body : CreateProductBody) (freshId : Nat) (now : Int) :
    ((body.title = none ∨ body.description = none ∨ body.price = none) →
      (createProduct s uid body freshId now).1.status = 400 ∧
      (createProduct s uid body freshId now).2 = s) ∧
    (∀ pr : ℚ, body.price = some pr →
      strTruthy body.title = true → strTruthy body.description = true →
      ∃ p, (createProduct s uid body freshId now).1 =
          { status := 201, message := some "Product created successfully",
            product := some p } ∧
        p.price = pr ∧
        p.image_url = orNull body.image_url ∧
        p.category = orNull body.category ∧
        p.stock_quantity = body.stock_quantity.getD 0 ∧
        p.is_active = body.is_active.getD true ∧
        (body.image_url = none → p.image_url = none) ∧
        (body.category = none → p.category = none) ∧
        (body.stock_quantity = none → p.stock_quantity = 0) ∧
        (body.is_active ≠ some false → p.is_active = true) ∧
        (createProduct s uid body freshId now).2.products = s.products ++ [p]) := by
  constructor
  · intro h
    have hv : strTruthy body.title = false ∨ strTruthy body.description = false ∨
        body.price = none := by
      rcases h with h | h | h
      · exact Or.inl (by simp [h, strTruthy])
      · exact Or.inr (Or.inl (by simp [h, strTruthy]))
      · exact Or.inr (Or.inr h)
    constructor
    · simp [createProduct, hv]
    · simp [createProduct, hv]
  · intro pr hpr ht hd
    have hv : ¬ (strTruthy body.title = false ∨ strTruthy body.description = false ∨
        body.price = none) := by
      simp [ht, hd, hpr]
    refine ⟨{ id := freshId,
              seller_id := uid,
              title := body.title.getD "",
              description := body.description.getD "",
              price := body.price.getD 0,
              image_url := orNull body.image_url,
              category := orNull body.category,
              stock_quantity := body.stock_quantity.getD 0,
              is_active := body.is_active.getD true,
              created_at := now,
              updated_at := now }, ?_, ?_, rfl, rfl, rfl, rfl,
      ?_, ?_, ?_, ?_, ?_⟩
    · simp [createProduct, hv]
    · simp [hpr]
    · intro h; simp [h, orNull, strTruthy]
    · intro h; simp [h, orNull, strTruthy]
    · intro h; simp [h]
    · intro h
      match hb : body.is_active with
      | none => simp
      | some true => simp
      | some false => exact absurd hb h
    · simp [createProduct, hv]

/-- Witness for `create_product_validation`: a body missing everything is
rejected; the spec scenario body (`Widget`, `d`, price 9.99) is
accepted with stock 0 and active true; a zero price is also accepted. -/
theorem create_product_validation_witness :
    (createProduct demoStore 5 {} 3 0).1.status = 400 ∧
    (∃ p, (createProduct demoStore 5 demoCreateBody 3 0).1.status = 201 ∧
      (createProduct demoStore 5 demoCreateBody 3 0).1.product = some p ∧
      p.price = (9.99 : ℚ) ∧ p.stock_quantity = 0 ∧ p.is_active = true) ∧
    (createProduct demoStore 5 { demoCreateBody with price := some 0 }
        3 0).1.status = 201 := by
  refine ⟨?_, ?_, ?_⟩
  · exact ((create_product_validation demoStore 5 {} 3 0).1 (Or.inl rfl)).1
  · obtain ⟨p, h1, h2, h3, h4, h5, h6, -⟩ :=
      (create_product_validation demoStore 5 demoCreateBody 3 0).2 (9.99 : ℚ)
        rfl (by decide) (by decide)
    simp only [demoCreateBody] at h5 h6
    exact ⟨p, by rw [h1], by rw [h1], h2, by simpa using h5, by simpa using h6⟩
  · obtain ⟨p, h1, -⟩ :=
      (create_product_validation demoStore 5
        { demoCreateBody with price := some 0 } 3 0).2 0 rfl (by decide) (by decide)
    rw [h1]

/-- C3: when the target of `PUT` or `DELETE /api/my-products/:id` exists
but is owned by a different seller, both handlers answer 403 and leave
the store untouched (the returned store is the input store, i.e. no
write is issued). -/
theorem my_products_foreign_forbidden (s : Store) (uid pid : Nat)
    (body : UpdateProductBody) (now : Int) (product : Product)
    (hfind : s.products.find? (fun p => p.id == pid) = some product)
    (howner : product.seller_id ≠ uid) :
    updateMyProduct s uid pid body now =
      ({ status := 403, error := some "You can only edit your own products" }, s) ∧
    deleteMyProduct s uid pid =
      ({ status := 403, error := some "You can only delete your own products" }, s) := by
  constructor
  · simp [updateMyProduct, hfind, howner]
  · simp [deleteMyProduct, hfind, howner]

/-- Witness for `my_products_foreign_forbidden`: user 9 attacking product
1 (owned by user 5) gets 403 from both handlers and the store is
unchanged. -/
theorem my_products_foreign_forbidden_witness :
    (updateMyProduct demoStore 9 1 {} 0).1.status = 403 ∧
    (updateMyProduct demoStore 9 1 {} 0).2 = demoStore ∧
    (deleteMyProduct demoStore 9 1).1.status = 403 ∧
    (deleteMyProduct demoStore 9 1).2 = demoStore := by
  obtain ⟨h1, h2⟩ :=
    my_products_foreign_forbidden demoStore 9 1 {} 0 demoProduct rfl (by decide)
  exact ⟨by rw [h1], by rw [h1], by rw [h2], by rw [h2]⟩

/-- C5: deleting an owned product that at least one cart item references
answers 400 with the deactivation suggestion, and the returned store is
the input store, so the product and every referencing cart item are
unchanged. -/
theorem delete_product_in_cart_refused (s : Store) (uid pid : Nat)
    (product : Product)
    (hfind : s.products.find? (fun p => p.id == pid) = some product)
    (howner : product.seller_id = uid)
    (hcart : s.cart_items.filter (fun ci => ci.product_id == pid) ≠ []) :
    deleteMyProduct s uid pid =
      ({ status := 400,
         error := some "Cannot delete product that is currently in customer carts",
         suggestion := some "Consider marking it as inactive instead" }, s) := by
  have h1 : ¬ (product.seller_id ≠ uid) := by simp [howner]
  have h2 : 0 < (s.cart_items.filter (fun ci => ci.product_id == pid)).length :=
    List.length_pos.mpr hcart
  simp [deleteMyProduct, hfind, h1, h2]

/-- Witness for `delete_product_in_cart_refused`: the owner (user 5)
tries to delete product 1 while user 7 has it in cart. -/
theorem delete_product_in_cart_refused_witness :
    deleteMyProduct demoStoreWithItem 5 1 =
      ({ status := 400,
         error := some "Cannot delete product that is currently in customer carts",
         suggestion := some "Consider marking it as inactive instead" },
       demoStoreWithItem) := by
  exact delete_product_in_cart_refused demoStoreWithItem 5 1 demoProduct rfl rfl
    (by decide)

/-- C7: the seller statistics over the caller's product rows are the
advertised aggregates: total count, active count, inactive = total −
active, out-of-stock count, total inventory value Σ price·stock, and
the count of products created strictly later than now minus 7 days. -/
theorem seller_stats_correct (ps : List Product) (now : Int) :
    sellerStats ps now =
      { totalProducts := ps.length,
        activeProducts := ps.countP (fun p => p.is_active),
        inactiveProducts := ps.length - ps.countP (fun p => p.is_active),
        outOfStockProducts := ps.countP (fun p => p.stock_quantity == 0),
        recentProducts := ps.countP (fun p => decide (now - sevenDays < p.created_at)),
        totalInventoryValue :=
          (ps.map (fun p => p.price * (p.stock_quantity : ℚ))).sum } := by
  simp [sellerStats, List.countP_eq_length_filter, foldl_add_eq_sum]

/-- C9: a profile read with no profile row (or a failed lookup) still
answers 200, every profile field carrying its identity-derived
fallback: `username` from the metadata display name, `website` the
empty string (identity metadata carries no website), `avatar_url` from
the metadata avatar, `google_id` from the metadata provider id, `name`
from the display name falling back to the email, and the immutable
identity timestamps are included. -/
theorem profile_read_fallbacks (u : UserIdentity) :
    (getProfile u none).status = 200 ∧
    (getProfile u none).username = u.metadata.full_name ∧
    (getProfile u none).website = "" ∧
    (getProfile u none).avatar_url = u.metadata.avatar_url ∧
    (getProfile u none).google_id = u.metadata.provider_id ∧
    (getProfile u none).name = jsOr u.metadata.full_name (some u.email) ∧
    (getProfile u none).created_at = u.created_at ∧
    (getProfile u none).last_sign_in_at = u.last_sign_in_at ∧
    (getProfile u none).email_confirmed_at = u.email_confirmed_at := by
  refine ⟨rfl, ?_, rfl, ?_, ?_, ?_, rfl, rfl, rfl⟩ <;>
    simp [getProfile, jsOr, jsOrD, strTruthy]

/-- C10: in `DELETE /api/cart/:id` ownership is checked only by the read,
which filters by item id AND `user_id` and answers 404 when nothing
matches; the delete write filters by the item id alone, so every cart
row carrying that id is removed from the store regardless of its
`user_id`. -/
theorem remove_cart_delete_by_id_only (s : Store) (uid cid : Nat) :
    (s.cart_items.find? (fun ci => ci.id == cid && ci.user_id == uid) = none →
      removeFromCart s uid cid =
        ({ status := 404, error := some "Cart item not found" }, s)) ∧
    (∀ item,
      s.cart_items.find? (fun ci => ci.id == cid && ci.user_id == uid) = some item →
      (removeFromCart s uid cid).2.cart_items =
        s.cart_items.filter (fun ci => !(ci.id == cid)) ∧
      ∀ r ∈ s.cart_items, r.id = cid →
        r ∉ (removeFromCart s uid cid).2.cart_items) := by
  constructor
  · intro h
    simp [removeFromCart, h]
  · intro item h
    constructor
    · simp [removeFromCart, h]
    · intro r hr hid
      simp [removeFromCart, h, List.mem_filter, hid]

/-- Witness for `remove_cart_delete_by_id_only`: when two cart rows of
different users share the id 1, user 7's delete of item 1 removes both
rows; on an empty cart the same request answers 404. -/
theorem remove_cart_delete_by_id_only_witness :
    (removeFromCart demoCartTwoOwners 7 1).2.cart_items = [] ∧
    (removeFromCart { demoCartTwoOwners with cart_items := [] } 7 1).1.status = 404 := by
  constructor
  · rw [((remove_cart_delete_by_id_only demoCartTwoOwners 7 1).2 demoItem rfl).1]
    rfl
  · rw [(remove_cart_delete_by_id_only
      { demoCartTwoOwners with cart_items := [] } 7 1).1 rfl]

end GoBuy
